import Mathlib

/-!
Verification development for the client-side script of a single-page
portfolio site (`src/index.js`).  The script consists of six independent
behaviour units; the definitions below are a shallow embedding of the
parts relevant to the stated properties:

* the contact-form submit handler (`initContactForm`, lines 325-493),
* the email validator (`isValidEmailAddress`, lines 346-348),
* the scroll-spy section detector and link highlighter (lines 76-142),
* the smooth-scroll click handler (lines 22-68),
* the one-shot reveal / skill-bar intersection handlers (lines 213-310).

Pixel coordinates are modelled as exact rationals (the source computes
`window.innerHeight * 0.4`, modelled as multiplication by `2 / 5`), DOM
lookups as `Option`-valued functions, and the asynchronous resolution of
the one outbound request as an explicit `RemoteOutcome` argument.
-/

/-! ## JavaScript whitespace, `String.prototype.trim` -/

/-- Character class of JavaScript `\s` (WhiteSpace ∪ LineTerminator),
which is also the set stripped by `String.prototype.trim`. -/
def isJsSpace (c : Char) : Bool :=
  c = ' ' || c = '\t' || c = '\n' || c = '\x0b' || c = '\x0c' || c = '\r' ||
  c = '\u00A0' || c = '\u1680' ||
  (0x2000 ≤ c.toNat && c.toNat ≤ 0x200A) ||
  c = '\u2028' || c = '\u2029' || c = '\u202F' || c = '\u205F' ||
  c = '\u3000' || c = '\uFEFF'

/-- List-level trim: drop JS whitespace from both ends. -/
def trimChars (l : List Char) : List Char :=
  ((l.dropWhile isJsSpace).reverse.dropWhile isJsSpace).reverse

/-- Embedding of JavaScript `String.prototype.trim`. -/
def jsTrim (s : String) : String :=
  ⟨trimChars s.data⟩

/-! ## Email validator (src/index.js:346-348)

The source tests the regular expression `/^[^\s@]+@[^\s@]+\.[^\s@]+$/`.
`emailChar` is the character class `[^\s@]`; `splitAtSign` splits a
string at its first `'@'` (the class `[^\s@]` excludes `'@'`, so the
`'@'` consumed by the pattern is necessarily the first and only one);
`domainMatch` decides the sub-pattern `[^\s@]+\.[^\s@]+`, with
`domainTailMatch` handling the remainder after one mandatory domain
character (the `||` implements the backtracking choice of which dot is
the separator).  `emailRegexSem` states the regular expression's
semantics directly as the existence of a decomposition. -/

/-- Character class `[^\s@]`. -/
def emailChar (c : Char) : Bool :=
  !(isJsSpace c) && !(c = '@' : Bool)

/-- Splits a list at its first `'@'`: `some (before, after)` when an
`'@'` occurs, `none` otherwise. -/
def splitAtSign : List Char → Option (List Char × List Char)
  | [] => none
  | c :: rest =>
    if c = '@' then some ([], rest)
    else
      match splitAtSign rest with
      | some (a, d) => some (c :: a, d)
      | none => none

/-- Decides whether a list matches `[^\s@]*\.[^\s@]+` (chars before any
separating dot, then the dot, then at least one trailing char). -/
def domainTailMatch : List Char → Bool
  | [] => false
  | c :: rest =>
    (c = '.' && !rest.isEmpty && rest.all emailChar) ||
    (emailChar c && domainTailMatch rest)

/-- Decides whether a list matches the domain sub-pattern
`[^\s@]+\.[^\s@]+`. -/
def domainMatch : List Char → Bool
  | [] => false
  | c :: rest => emailChar c && domainTailMatch rest

/-- Executable embedding of the full test
`/^[^\s@]+@[^\s@]+\.[^\s@]+$/.test(email)`. -/
def emailRegexTest (l : List Char) : Bool :=
  match splitAtSign l with
  | some (a, d) => !a.isEmpty && a.all emailChar && domainMatch d
  | none => false

/-- Embedding of `isValidEmailAddress` (src/index.js:346-348). -/
def isValidEmailAddress (email : String) : Bool :=
  emailRegexTest email.data

/-- Declarative semantics of the regular expression
`^[^\s@]+@[^\s@]+\.[^\s@]+$`: the string decomposes as a non-empty run
of `[^\s@]` characters, an `'@'`, a non-empty run, a `'.'`, and a final
non-empty run. -/
def emailRegexSem (l : List Char) : Prop :=
  ∃ a b c : List Char,
    l = a ++ '@' :: (b ++ '.' :: c) ∧
    a ≠ [] ∧ b ≠ [] ∧ c ≠ [] ∧
    (∀ x ∈ a, emailChar x = true) ∧
    (∀ x ∈ b, emailChar x = true) ∧
    (∀ x ∈ c, emailChar x = true)

/-- Modelled from the claim wording (for comparison with the code):
accept exactly when there is a non-empty local part free of whitespace
and `'@'`, then `'@'`, then a domain part free of whitespace and `'@'`
that contains a dot anywhere. -/
def emailClaimAccepts (email : String) : Bool :=
  match splitAtSign email.data with
  | some (a, d) => !a.isEmpty && a.all emailChar &&
      !d.isEmpty && d.all emailChar && d.contains '.'
  | none => false

/-! ## Contact form (src/index.js:325-493) -/

/-- Current values of the four contact form fields. -/
structure ContactFields where
  name : String
  email : String
  subject : String
  message : String
deriving DecidableEq

/-- Resolution of the one outbound request issued by the handler:
either the promise chain resolves with the response's HTTP `ok` flag
and the (optional, possibly empty) `error` field of the parsed JSON
body, or it rejects (transport failure). -/
inductive RemoteOutcome where
  | resolved (httpOk : Bool) (errorField : Option String)
  | rejected
deriving DecidableEq

/-- Observable effects of one run of the submit handler (through the
resolution of the outbound request if one is issued):  counts of mailto
anchors constructed-and-clicked and of network requests, per-field error
indicators applied in this pass, the final status message and its visual
type, the field values after the run, and the sequence of writes to the
submit control's `disabled` flag in order. -/
structure SubmitEffects where
  mailtoCount : Nat
  networkCount : Nat
  nameError : Bool
  emailError : Bool
  subjectError : Bool
  messageError : Bool
  statusMsg : String
  statusType : String
  fieldsAfter : ContactFields
  disabledWrites : List Bool
deriving DecidableEq

/-- Validation flag for the name field (`!nameValue`, line 388). -/
def nameInvalid (f : ContactFields) : Bool :=
  jsTrim f.name == ""

/-- Validation flag for the email field (line 392). -/
def emailInvalid (f : ContactFields) : Bool :=
  !(isValidEmailAddress (jsTrim f.email))

/-- Validation flag for the subject field (line 396). -/
def subjectInvalid (f : ContactFields) : Bool :=
  jsTrim f.subject == ""

/-- Validation flag for the message field (line 400). -/
def messageInvalid (f : ContactFields) : Bool :=
  jsTrim f.message == ""

/-- Aggregate `formIsValid` flag of the handler (lines 386-403): the
source starts at `true` and clears it in each failing check, which is
equivalent to the negated disjunction of the four failure flags. -/
def formIsValid (f : ContactFields) : Bool :=
  !(nameInvalid f || emailInvalid f || subjectInvalid f || messageInvalid f)

/-- Sentinel value of the `FORMSPREE_FORM_ID` constant (line 326). -/
def FORMSPREE_FORM_ID : String := "YOUR_FORM_ID"

/-- Embedding of the submit handler (src/index.js:373-492), run to
completion through the resolution of the request when one is issued.
`formId` is the value of the `FORMSPREE_FORM_ID` constant (the code
ships with the sentinel; configuring the relay changes it), `f` the
pre-submission field values, `outcome` the resolution of the request
(ignored on paths that issue none).  The transient 600 ms self-removal
of the per-field error class and the percent-encoding of the mailto URI
are below the granularity of this model; the mailto path is recorded by
its action count. -/
def submitHandler (formId : String) (f : ContactFields)
    (outcome : RemoteOutcome) : SubmitEffects :=
  if formIsValid f = false then
    -- lines 388-408: flag every invalid field, set the aggregate
    -- error status, return before any network or mailto action
    { mailtoCount := 0, networkCount := 0,
      nameError := nameInvalid f, emailError := emailInvalid f,
      subjectError := subjectInvalid f, messageError := messageInvalid f,
      statusMsg := "Please fill in all fields correctly.",
      statusType := "error",
      fieldsAfter := f, disabledWrites := [] }
  else if formId = "YOUR_FORM_ID" then
    -- lines 410-436: mailto fallback; one synthetic anchor is created,
    -- clicked and removed; field values are never written
    { mailtoCount := 1, networkCount := 0,
      nameError := false, emailError := false,
      subjectError := false, messageError := false,
      statusMsg := "Opening your email client…",
      statusType := "success",
      fieldsAfter := f, disabledWrites := [] }
  else
    -- lines 438-491: disable the control, issue the request, and in
    -- every terminal branch re-enable it
    match outcome with
    | RemoteOutcome.resolved true _ =>
      { mailtoCount := 0, networkCount := 1,
        nameError := false, emailError := false,
        subjectError := false, messageError := false,
        statusMsg := "✓ Message sent — I\x27ll reply soon!",
        statusType := "success",
        fieldsAfter := { name := "", email := "", subject := "", message := "" },
        disabledWrites := [true, false] }
    | RemoteOutcome.resolved false errorField =>
      { mailtoCount := 0, networkCount := 1,
        nameError := false, emailError := false,
        subjectError := false, messageError := false,
        statusMsg :=
          match errorField with
          | some e => if e = "" then "Something went wrong. Please try again." else e
          | none => "Something went wrong. Please try again.",
        statusType := "error",
        fieldsAfter := f, disabledWrites := [true, false] }
    | RemoteOutcome.rejected =>
      { mailtoCount := 0, networkCount := 1,
        nameError := false, emailError := false,
        subjectError := false, messageError := false,
        statusMsg := "Network error. Please email hello@mdkportfolio.dev directly.",
        statusType := "error",
        fieldsAfter := f, disabledWrites := [true, false] }

/-! ## Scroll-spy (src/index.js:76-142) -/

/-- Ordered list of section identifiers matching page order (line 78). -/
def SECTION_IDS : List String :=
  ["home", "about", "projects", "skills", "contact"]

/-- Scroll-time environment read by `detectActiveSection`:
`window.pageYOffset`, `window.innerHeight`, and each section's
`offsetTop` (`none` when `document.getElementById` finds no element). -/
structure ScrollEnv where
  pageYOffset : ℚ
  innerHeight : ℚ
  offsetTop : String → Option ℚ

/-- Embedding of `detectActiveSection` (src/index.js:103-117).
`triggerLineY = pageYOffset + innerHeight * 0.4` (line 106); the fold
realises the in-order walk that keeps the last section whose `offsetTop`
is at or below the trigger line, starting from `SECTION_IDS[0]`. -/
def detectActiveSection (env : ScrollEnv) : String :=
  if env.pageYOffset < 80 then "home"
  else
    SECTION_IDS.foldl
      (fun cur id =>
        match env.offsetTop id with
        | some top =>
          if top ≤ env.pageYOffset + env.innerHeight * (2 / 5) then id else cur
        | none => cur)
      "home"

/-- Predicate under which a section id updates the walk: its element
exists and its `offsetTop` is at or below the trigger line. -/
def sectionQualifies (env : ScrollEnv) (id : String) : Bool :=
  match env.offsetTop id with
  | some top => top ≤ env.pageYOffset + env.innerHeight * (2 / 5)
  | none => false

/-- Navigation link as seen by the scroll-spy: its `data-section`
attribute, the `is-active` class, and presence of `aria-current`. -/
structure NavLink where
  sectionId : String
  isActive : Bool
  ariaCurrent : Bool
deriving DecidableEq

/-- Embedding of `highlightActiveSection` (src/index.js:85-95): toggles
`is-active` on every link to whether its `data-section` matches, and
sets/removes `aria-current` accordingly. -/
def highlightActiveSection (activeSectionId : String)
    (links : List NavLink) : List NavLink :=
  links.map (fun link =>
    let m := link.sectionId == activeSectionId
    { link with isActive := m, ariaCurrent := m })

/-! ## Smooth scroll (src/index.js:22-68) -/

/-- Target element of an in-page link, reduced to the one property the
handler reads: `getBoundingClientRect().top`. -/
structure PageElement where
  rectTop : ℚ
deriving DecidableEq

/-- Environment of one delegated click: the `href` of the nearest
enclosing `a[href^="#"]` ancestor (`none` when there is none), element
lookup by id, the navigation bar's `offsetHeight` (`none` when
`.site-nav` is absent), and `window.pageYOffset`. -/
structure ClickEnv where
  anchorHref : Option String
  getElementById : String → Option PageElement
  navHeight : Option ℚ
  pageYOffset : ℚ

/-- Observable outcome of the click handler: whether default behaviour
was prevented, the destination passed to `window.scrollTo` (if any), and
whether the mobile-menu close function was invoked. -/
structure ClickResult where
  prevented : Bool
  scrolledTo : Option ℚ
  menuCloseCalled : Bool
deriving DecidableEq

/-- Embedding of the smooth-scroll click handler (src/index.js:32-67). -/
def smoothScrollClick (env : ClickEnv) : ClickResult :=
  match env.anchorHref with
  | none => ⟨false, none, false⟩
  | some targetHash =>
    if targetHash = "" ∨ targetHash = "#" then ⟨false, none, false⟩
    else
      match env.getElementById (targetHash.drop 1) with
      | none => ⟨false, none, false⟩
      | some targetSection =>
        let navHeight := env.navHeight.getD 0
        let sectionTop := targetSection.rectTop + env.pageYOffset
        ⟨true, some (sectionTop - navHeight - 8), true⟩

/-! ## One-shot intersection handlers (src/index.js:213-310) -/

/-- Per-element state of the reveal animator: the `is-revealed` class
and whether the element is still observed. -/
structure RevealState where
  revealed : Bool
  observed : Bool
deriving DecidableEq

/-- Embedding of the reveal observer callback for one entry
(src/index.js:236-241): on an intersecting entry, add `is-revealed`
(idempotently) and unobserve; otherwise do nothing. -/
def revealStep (s : RevealState) (isIntersecting : Bool) : RevealState :=
  if isIntersecting then { revealed := true, observed := false } else s

/-- State of the skill-bar animator: the `hasAnimated` guard, whether
the skills section is still observed, and whether `fillBars()` ran. -/
structure SkillState where
  hasAnimated : Bool
  observed : Bool
  filled : Bool
deriving DecidableEq

/-- Embedding of the skills observer callback for one entry
(src/index.js:297-305): on an intersecting entry with the guard unset,
set the guard, fill the bars, and unobserve; otherwise do nothing. -/
def skillStep (s : SkillState) (isIntersecting : Bool) : SkillState :=
  if isIntersecting && !s.hasAnimated then
    { hasAnimated := true, observed := false, filled := true }
  else s

/-! ## Concrete instances used by witnesses and counterexamples -/

/-- Section offsets of the worked spec example:
`home=0, about=800, projects=1600`, other ids absent. -/
def demoOffsets : String → Option ℚ := fun id =>
  if id = "home" then some 0
  else if id = "about" then some 800
  else if id = "projects" then some 1600
  else none

/-- Spec example environment: viewport height 1000, scroll position 40. -/
def demoEnv40 : ScrollEnv :=
  { pageYOffset := 40, innerHeight := 1000, offsetTop := demoOffsets }

/-- Spec example environment: viewport height 1000, scroll position 900. -/
def demoEnv900 : ScrollEnv :=
  { pageYOffset := 900, innerHeight := 1000, offsetTop := demoOffsets }

/-- A fully valid set of field values. -/
def demoValidFields : ContactFields :=
  { name := "Ada Lovelace", email := "a@b.c", subject := "Hello", message := "A message" }

/-- Field values with invalid name, email and message (subject valid). -/
def demoInvalidFields : ContactFields :=
  { name := "  ", email := "not-an-email", subject := "Hi", message := "" }

/-- Duplicate navigation links for the same section (desktop + mobile
nav), both initially inactive. -/
def demoDupLinks : List NavLink :=
  [{ sectionId := "home", isActive := false, ariaCurrent := false },
   { sectionId := "home", isActive := false, ariaCurrent := false }]

/-- Navigation links with pairwise distinct section identifiers. -/
def demoNavLinks : List NavLink :=
  [{ sectionId := "home", isActive := false, ariaCurrent := false },
   { sectionId := "about", isActive := false, ariaCurrent := false }]

/-- A scroll target 900 units below the viewport top. -/
def demoElement : PageElement :=
  { rectTop := 900 }

/-- Click environment: a link to `#about`, a 64-unit navigation bar,
scroll offset 40. -/
def demoClickEnv : ClickEnv :=
  { anchorHref := some "#about",
    getElementById := fun id => if id = "about" then some demoElement else none,
    navHeight := some 64,
    pageYOffset := 40 }

/-! ## Supporting lemmas -/

/-- Unfolding lemma: splitting a cons. -/
theorem splitAtSign_cons (c : Char) (rest : List Char) :
    splitAtSign (c :: rest) =
      if c = '@' then some ([], rest)
      else
        match splitAtSign rest with
        | some (a, d) => some (c :: a, d)
        | none => none := rfl

/-- Soundness of `splitAtSign`: a successful split reassembles the input
and the part before the `'@'` contains no `'@'`. -/
theorem splitAtSign_eq_some :
    ∀ {l a d : List Char}, splitAtSign l = some (a, d) →
      l = a ++ '@' :: d ∧ '@' ∉ a := by
  intro l
  induction l with
  | nil => intro a d h; simp [splitAtSign] at h
  | cons c rest ih =>
    intro a d h
    rw [splitAtSign_cons] at h
    by_cases hc : c = '@'
    · rw [if_pos hc] at h
      obtain ⟨rfl, rfl⟩ : [] = a ∧ rest = d := by simpa using h
      simp [hc]
    · rw [if_neg hc] at h
      cases hs : splitAtSign rest with
      | none => rw [hs] at h; simp at h
      | some p =>
        obtain ⟨a0, d0⟩ := p
        rw [hs] at h
        obtain ⟨rfl, rfl⟩ : c :: a0 = a ∧ d0 = d := by simpa using h
        obtain ⟨hrest, hnot⟩ := ih hs
        refine ⟨by simp [hrest], ?_⟩
        intro hmem
        rcases List.mem_cons.mp hmem with heq | hmem0
        · exact hc heq.symm
        · exact hnot hmem0

/-- Completeness of `splitAtSign`: the first-`'@'` split is found. -/
theorem splitAtSign_append :
    ∀ (a d : List Char), '@' ∉ a → splitAtSign (a ++ '@' :: d) = some (a, d) := by
  intro a
  induction a with
  | nil => intro d _; simp [splitAtSign]
  | cons x a0 ih =>
    intro d hx
    have hxne : ¬ x = '@' := by
      intro h; exact hx (by simp [h])
    have ha0 : '@' ∉ a0 := fun h => hx (List.mem_cons_of_mem _ h)
    rw [List.cons_append, splitAtSign_cons, if_neg hxne, ih d ha0]

/-- Characterisation of `domainTailMatch`: it accepts exactly the lists
of the form `b ++ '.' :: c` with `c` non-empty and all characters in the
class `[^\s@]`. -/
theorem domainTailMatch_iff :
    ∀ l : List Char,
      domainTailMatch l = true ↔
        ∃ b c : List Char, l = b ++ '.' :: c ∧ c ≠ [] ∧
          (∀ x ∈ b, emailChar x = true) ∧ (∀ x ∈ c, emailChar x = true) := by
  intro l
  induction l with
  | nil =>
    constructor
    · intro h; simp [domainTailMatch] at h
    · rintro ⟨b, c, habs, -⟩
      exact absurd habs (by simp)
  | cons x rest ih =>
    simp only [domainTailMatch, Bool.or_eq_true, Bool.and_eq_true,
      decide_eq_true_eq, Bool.not_eq_true', List.all_eq_true,
      List.isEmpty_eq_false]
    constructor
    · rintro (⟨⟨hx, hne⟩, hall⟩ | ⟨hx, htail⟩)
      · exact ⟨[], rest, by simp [hx], hne, by simp, hall⟩
      · obtain ⟨b, c, rfl, hc, hb, hcall⟩ := ih.mp htail
        refine ⟨x :: b, c, rfl, hc, ?_, hcall⟩
        intro y hy
        rcases List.mem_cons.mp hy with rfl | hy0
        · exact hx
        · exact hb y hy0
    · rintro ⟨b, c, heq, hc, hb, hcall⟩
      cases b with
      | nil =>
        simp only [List.nil_append] at heq
        injection heq with h1 h2
        subst h1; subst h2
        exact Or.inl ⟨⟨rfl, hc⟩, hcall⟩
      | cons y b0 =>
        simp only [List.cons_append] at heq
        injection heq with h1 h2
        subst h1; subst h2
        refine Or.inr ⟨hb x (by simp), ?_⟩
        exact ih.mpr ⟨b0, c, rfl, hc, fun z hz => hb z (by simp [hz]), hcall⟩

/-- Characterisation of `domainMatch`: it accepts exactly the domain
sub-pattern `[^\s@]+\.[^\s@]+`. -/
theorem domainMatch_iff :
    ∀ d : List Char,
      domainMatch d = true ↔
        ∃ b c : List Char, d = b ++ '.' :: c ∧ b ≠ [] ∧ c ≠ [] ∧
          (∀ x ∈ b, emailChar x = true) ∧ (∀ x ∈ c, emailChar x = true) := by
  intro d
  cases d with
  | nil =>
    constructor
    · intro h; simp [domainMatch] at h
    · rintro ⟨b, c, habs, hb, -⟩
      cases b <;> simp_all
  | cons x rest =>
    simp only [domainMatch, Bool.and_eq_true]
    constructor
    · rintro ⟨hx, htail⟩
      obtain ⟨b, c, rfl, hc, hb, hcall⟩ := (domainTailMatch_iff rest).mp htail
      refine ⟨x :: b, c, rfl, by simp, hc, ?_, hcall⟩
      intro y hy
      rcases List.mem_cons.mp hy with rfl | hy0
      · exact hx
      · exact hb y hy0
    · rintro ⟨b, c, heq, hb, hc, hball, hcall⟩
      cases b with
      | nil => exact absurd rfl hb
      | cons y b0 =>
        simp only [List.cons_append] at heq
        injection heq with h1 h2
        subst h1
        refine ⟨hball x (by simp), ?_⟩
        exact (domainTailMatch_iff rest).mpr
          ⟨b0, c, h2, hc, fun z hz => hball z (by simp [hz]), hcall⟩

/-- The character class `[^\s@]` rejects `'@'`. -/
theorem emailChar_at : emailChar '@' = false := by decide

/-- The executable matcher agrees with the declarative semantics of the
regular expression `^[^\s@]+@[^\s@]+\.[^\s@]+$`. -/
theorem emailRegexTest_iff (l : List Char) :
    emailRegexTest l = true ↔ emailRegexSem l := by
  constructor
  · intro h
    unfold emailRegexTest at h
    cases hs : splitAtSign l with
    | none => rw [hs] at h; exact absurd h (by simp)
    | some p =>
      obtain ⟨a, d⟩ := p
      rw [hs] at h
      simp only [Bool.and_eq_true, Bool.not_eq_true', List.all_eq_true,
        List.isEmpty_eq_false] at h
      obtain ⟨⟨hane, haall⟩, hdom⟩ := h
      obtain ⟨rfl, -⟩ := splitAtSign_eq_some hs
      obtain ⟨b, c, rfl, hb, hc, hball, hcall⟩ := (domainMatch_iff d).mp hdom
      exact ⟨a, b, c, rfl, hane, hb, hc, haall, hball, hcall⟩
  · rintro ⟨a, b, c, rfl, ha, hb, hc, haall, hball, hcall⟩
    have hno : '@' ∉ a := by
      intro hmem
      have hcontra := haall '@' hmem
      rw [emailChar_at] at hcontra
      exact absurd hcontra (by simp)
    unfold emailRegexTest
    rw [splitAtSign_append a (b ++ '.' :: c) hno]
    simp only [Bool.and_eq_true, Bool.not_eq_true', List.all_eq_true,
      List.isEmpty_eq_false]
    exact ⟨⟨ha, haall⟩, (domainMatch_iff _).mpr ⟨b, c, rfl, hb, hc, hball, hcall⟩⟩

/-- The fold in `detectActiveSection` keeps the last element satisfying
`q`, falling back to the seed value. -/
theorem foldl_keep_last (q : String → Bool) :
    ∀ (l : List String) (init : String),
      l.foldl (fun cur id => if q id then id else cur) init =
        (l.filter q).getLastD init := by
  intro l
  induction l with
  | nil => intro init; rfl
  | cons x xs ih =>
    intro init
    rw [List.foldl_cons, List.filter_cons]
    cases hq : q x
    · rw [if_neg (by simp), if_neg (by simp)]
      exact ih init
    · rw [if_pos rfl, if_pos rfl, List.getLastD_cons]
      exact ih x

/-- Beyond the 80-unit top band, `detectActiveSection` returns the last
qualifying section in page order, defaulting to `"home"` when no section
qualifies. -/
theorem detectActiveSection_eq_filter (env : ScrollEnv)
    (h : ¬ env.pageYOffset < 80) :
    detectActiveSection env =
      (SECTION_IDS.filter (sectionQualifies env)).getLastD "home" := by
  have hfun : (fun (cur id : String) =>
      match env.offsetTop id with
      | some top =>
        if top ≤ env.pageYOffset + env.innerHeight * (2 / 5) then id else cur
      | none => cur) =
      fun (cur id : String) => if sectionQualifies env id then id else cur := by
    funext cur id
    unfold sectionQualifies
    cases env.offsetTop id with
    | none => simp
    | some top =>
      by_cases ht : top ≤ env.pageYOffset + env.innerHeight * (2 / 5)
      · simp [ht]
      · simp [ht]
  unfold detectActiveSection
  rw [if_neg h, hfun]
  exact foldl_keep_last (sectionQualifies env) SECTION_IDS "home"

/-- Count of active links after a highlight pass equals the count of
links whose `data-section` matches the highlighted id. -/
theorem highlightActiveSection_countP (activeSectionId : String)
    (links : List NavLink) :
    (highlightActiveSection activeSectionId links).countP (fun l => l.isActive) =
      links.countP (fun l => l.sectionId == activeSectionId) := by
  unfold highlightActiveSection
  rw [List.countP_map]
  rfl

/-- C1: for every submission in which all four fields are valid, with
the form-id constant equal to the sentinel `"YOUR_FORM_ID"` exactly one
mailto action is constructed and triggered and no network request is
issued; with the constant different from the sentinel exactly one
network request is issued and no mailto action is constructed. -/
theorem contactForm_dispatch_C1 (formId : String) (f : ContactFields)
    (o : RemoteOutcome) (hv : formIsValid f = true) :
    (formId = "YOUR_FORM_ID" →
      (submitHandler formId f o).mailtoCount = 1 ∧
      (submitHandler formId f o).networkCount = 0) ∧
    (formId ≠ "YOUR_FORM_ID" →
      (submitHandler formId f o).networkCount = 1 ∧
      (submitHandler formId f o).mailtoCount = 0) := by
  constructor
  · intro h
    simp [submitHandler, hv, h]
  · intro h
    cases o with
    | resolved ok err => cases ok <;> simp [submitHandler, hv, h]
    | rejected => simp [submitHandler, hv, h]

/-- Witness for C1 at concrete inputs. -/
theorem contactForm_dispatch_C1_witness :
    formIsValid demoValidFields = true ∧
    (submitHandler "YOUR_FORM_ID" demoValidFields RemoteOutcome.rejected).mailtoCount = 1 ∧
    (submitHandler "YOUR_FORM_ID" demoValidFields RemoteOutcome.rejected).networkCount = 0 ∧
    (submitHandler "xabcdefg" demoValidFields RemoteOutcome.rejected).networkCount = 1 ∧
    (submitHandler "xabcdefg" demoValidFields RemoteOutcome.rejected).mailtoCount = 0 := by
  have hv : formIsValid demoValidFields = true := by decide
  refine ⟨hv, ?_, ?_, ?_, ?_⟩
  · exact ((contactForm_dispatch_C1 "YOUR_FORM_ID" demoValidFields
      RemoteOutcome.rejected hv).1 rfl).1
  · exact ((contactForm_dispatch_C1 "YOUR_FORM_ID" demoValidFields
      RemoteOutcome.rejected hv).1 rfl).2
  · exact ((contactForm_dispatch_C1 "xabcdefg" demoValidFields
      RemoteOutcome.rejected hv).2 (by decide)).1
  · exact ((contactForm_dispatch_C1 "xabcdefg" demoValidFields
      RemoteOutcome.rejected hv).2 (by decide)).2

/-- C2 counterexample: the input `"a@b."` satisfies the claimed
acceptance condition (non-empty local part free of whitespace and `@`,
an `@`, a domain free of whitespace and `@` containing a dot) but the
validator rejects it, because the regular expression requires at least
one domain character after the dot. -/
theorem email_validator_C2_counterexample :
    emailClaimAccepts "a@b." = true ∧ isValidEmailAddress "a@b." = false := by
  constructor <;> decide

/-- C2 (amended): the email validator accepts an input exactly when it
decomposes as a non-empty local part free of whitespace and `'@'`,
followed by `'@'`, followed by a domain part free of whitespace and
`'@'` containing an interior dot (at least one domain character before
and after some dot); in particular it returns true for `"a@b.c"` and
false for each of `"abc"`, `"a@b"` and `"@b.c"`. -/
theorem email_validator_C2 :
    (∀ email : String,
      isValidEmailAddress email = true ↔ emailRegexSem email.data) ∧
    isValidEmailAddress "a@b.c" = true ∧
    isValidEmailAddress "abc" = false ∧
    isValidEmailAddress "a@b" = false ∧
    isValidEmailAddress "@b.c" = false := by
  refine ⟨fun email => emailRegexTest_iff email.data, ?_, ?_, ?_, ?_⟩ <;> decide

/-- Witness for C2 at a concrete input. -/
theorem email_validator_C2_witness :
    emailRegexSem ("a@b.c").data :=
  (email_validator_C2.1 "a@b.c").mp (by decide)

/-- C3: for every submission with at least one invalid field, every
invalid field (and only those) receives the per-field error indicator in
that single pass, the single aggregate error status message is set, and
the handler returns with no network request, no mailto action, no field
mutation and no write to the submit control. -/
theorem contactForm_invalid_C3 (formId : String) (f : ContactFields)
    (o : RemoteOutcome) (hv : formIsValid f = false) :
    (submitHandler formId f o).nameError = nameInvalid f ∧
    (submitHandler formId f o).emailError = emailInvalid f ∧
    (submitHandler formId f o).subjectError = subjectInvalid f ∧
    (submitHandler formId f o).messageError = messageInvalid f ∧
    (submitHandler formId f o).statusMsg = "Please fill in all fields correctly." ∧
    (submitHandler formId f o).statusType = "error" ∧
    (submitHandler formId f o).networkCount = 0 ∧
    (submitHandler formId f o).mailtoCount = 0 ∧
    (submitHandler formId f o).fieldsAfter = f ∧
    (submitHandler formId f o).disabledWrites = [] := by
  simp [submitHandler, hv]

/-- Witness for C3 at a concrete input with invalid name, email and
message but valid subject: all three invalid fields are flagged, the
valid one is not. -/
theorem contactForm_invalid_C3_witness :
    formIsValid demoInvalidFields = false ∧
    (submitHandler "YOUR_FORM_ID" demoInvalidFields RemoteOutcome.rejected).nameError = true ∧
    (submitHandler "YOUR_FORM_ID" demoInvalidFields RemoteOutcome.rejected).emailError = true ∧
    (submitHandler "YOUR_FORM_ID" demoInvalidFields RemoteOutcome.rejected).subjectError = false ∧
    (submitHandler "YOUR_FORM_ID" demoInvalidFields RemoteOutcome.rejected).messageError = true ∧
    (submitHandler "YOUR_FORM_ID" demoInvalidFields RemoteOutcome.rejected).networkCount = 0 ∧
    (submitHandler "YOUR_FORM_ID" demoInvalidFields RemoteOutcome.rejected).mailtoCount = 0 := by
  have h := contactForm_invalid_C3 "YOUR_FORM_ID" demoInvalidFields
    RemoteOutcome.rejected (by decide)
  exact ⟨by decide, h.1.trans (by decide), h.2.1.trans (by decide),
    h.2.2.1.trans (by decide), h.2.2.2.1.trans (by decide),
    h.2.2.2.2.2.2.1, h.2.2.2.2.2.2.2.1⟩

/-- C4: after a remote submission resolves, an HTTP-success response
clears all four field values to the empty string, while an HTTP-failure
response or a transport-level failure leaves all four field values
unchanged from their pre-submission values. -/
theorem contactForm_remote_fields_C4 (formId : String) (f : ContactFields)
    (err : Option String) (hv : formIsValid f = true)
    (hid : formId ≠ "YOUR_FORM_ID") :
    (submitHandler formId f (RemoteOutcome.resolved true err)).fieldsAfter =
      { name := "", email := "", subject := "", message := "" } ∧
    (submitHandler formId f (RemoteOutcome.resolved false err)).fieldsAfter = f ∧
    (submitHandler formId f RemoteOutcome.rejected).fieldsAfter = f := by
  refine ⟨?_, ?_, ?_⟩ <;> simp [submitHandler, hv, hid]

/-- Witness for C4 at concrete inputs. -/
theorem contactForm_remote_fields_C4_witness :
    formIsValid demoValidFields = true ∧
    (submitHandler "xabcdefg" demoValidFields
        (RemoteOutcome.resolved true none)).fieldsAfter =
      { name := "", email := "", subject := "", message := "" } ∧
    (submitHandler "xabcdefg" demoValidFields
        (RemoteOutcome.resolved false none)).fieldsAfter = demoValidFields ∧
    (submitHandler "xabcdefg" demoValidFields
        RemoteOutcome.rejected).fieldsAfter = demoValidFields := by
  have h := contactForm_remote_fields_C4 "xabcdefg" demoValidFields none
    (by decide) (by decide)
  exact ⟨by decide, h.1, h.2.1, h.2.2⟩

/-- C5: the submit control's disabled flag is written `true` (then
`false`) exactly on the remote-submission path, for every terminal
outcome; on the validation-failure and mailto paths it is never written;
and the last write (or the idle value `false` when there is none) is
always `false`, so no execution path leaves the control disabled. -/
theorem contactForm_disabled_C5 (formId : String) (f : ContactFields)
    (o : RemoteOutcome) :
    (formIsValid f = true → formId ≠ "YOUR_FORM_ID" →
      (submitHandler formId f o).disabledWrites = [true, false]) ∧
    (formIsValid f = false ∨ formId = "YOUR_FORM_ID" →
      (submitHandler formId f o).disabledWrites = []) ∧
    (submitHandler formId f o).disabledWrites.getLastD false = false := by
  refine ⟨?_, ?_, ?_⟩
  · intro hv hid
    cases o with
    | resolved ok err => cases ok <;> simp [submitHandler, hv, hid]
    | rejected => simp [submitHandler, hv, hid]
  · intro h
    rcases h with hv | hid
    · simp [submitHandler, hv]
    · cases hfv : formIsValid f
      · simp [submitHandler, hfv]
      · simp [submitHandler, hfv, hid]
  · cases hfv : formIsValid f
    · simp [submitHandler, hfv]
    · by_cases hid : formId = "YOUR_FORM_ID"
      · simp [submitHandler, hfv, hid]
      · cases o with
        | resolved ok err => cases ok <;> simp [submitHandler, hfv, hid]
        | rejected => simp [submitHandler, hfv, hid]

/-- Witness for C5 at concrete inputs: one remote submission writes
`[true, false]`, one mailto submission writes nothing. -/
theorem contactForm_disabled_C5_witness :
    formIsValid demoValidFields = true ∧
    (submitHandler "xabcdefg" demoValidFields
      (RemoteOutcome.resolved true none)).disabledWrites = [true, false] ∧
    (submitHandler "YOUR_FORM_ID" demoValidFields
      (RemoteOutcome.resolved true none)).disabledWrites = [] := by
  refine ⟨by decide, ?_, ?_⟩
  · exact (contactForm_disabled_C5 "xabcdefg" demoValidFields
      (RemoteOutcome.resolved true none)).1 (by decide) (by decide)
  · exact (contactForm_disabled_C5 "YOUR_FORM_ID" demoValidFields
      (RemoteOutcome.resolved true none)).2.1 (Or.inr rfl)

/-- C6: the scroll-spy detector returns the first section `"home"`
whenever the scroll offset is within 80 units of the top; otherwise it
returns the last section in page order whose top offset is at or above
the trigger line (scroll offset plus 40% of the viewport height); on the
worked example (offsets home=0, about=800, projects=1600, viewport
height 1000) scroll position 40 yields `"home"` and scroll position 900
yields `"about"`. -/
theorem scrollSpy_detect_C6 :
    (∀ env : ScrollEnv, env.pageYOffset < 80 →
      detectActiveSection env = "home") ∧
    (∀ env : ScrollEnv, 80 ≤ env.pageYOffset →
      ∀ hne : SECTION_IDS.filter (sectionQualifies env) ≠ [],
        detectActiveSection env =
          (SECTION_IDS.filter (sectionQualifies env)).getLast hne) ∧
    detectActiveSection demoEnv40 = "home" ∧
    detectActiveSection demoEnv900 = "about" := by
  refine ⟨?_, ?_, ?_, ?_⟩
  · intro env h
    unfold detectActiveSection
    rw [if_pos h]
  · intro env hge hne
    rw [detectActiveSection_eq_filter env (not_lt.mpr hge)]
    rw [List.getLastD_eq_getLast?, List.getLast?_eq_getLast _ hne]
    rfl
  · decide
  · simp only [detectActiveSection, demoEnv900, demoOffsets, SECTION_IDS,
      List.foldl_cons, List.foldl_nil]
    simp
    norm_num

/-- Witness for C6 at a concrete input. -/
theorem scrollSpy_detect_C6_witness :
    demoEnv40.pageYOffset < 80 ∧ detectActiveSection demoEnv40 = "home" :=
  ⟨by norm_num [demoEnv40], scrollSpy_detect_C6.1 demoEnv40 (by norm_num [demoEnv40])⟩

/-- C7 counterexample: with duplicate navigation links for the same
section (the supported desktop + mobile markup), a scroll-position
evaluation selecting `"home"` leaves two links carrying the active
indicator, not exactly one. -/
theorem scrollSpy_uniqueActive_C7_counterexample :
    detectActiveSection demoEnv40 = "home" ∧
    ¬ (highlightActiveSection "home" demoDupLinks).countP
        (fun l => l.isActive) = 1 := by
  constructor <;> decide

/-- C7 (amended): after every scroll-position evaluation, a navigation
link carries the active indicator (and `aria-current`) exactly when its
section identifier equals the detected section, so the number of active
links equals the number of matching links — exactly one when the markup
provides exactly one matching link, more when duplicate links share the
section.  Before the first evaluation the indicator state is whatever
the markup supplies. -/
theorem scrollSpy_highlight_C7 (activeSectionId : String)
    (links : List NavLink) :
    ((highlightActiveSection activeSectionId links).countP (fun l => l.isActive) =
      links.countP (fun l => l.sectionId == activeSectionId)) ∧
    (∀ l ∈ highlightActiveSection activeSectionId links,
      l.isActive = (l.sectionId == activeSectionId) ∧
      l.ariaCurrent = (l.sectionId == activeSectionId)) ∧
    (links.countP (fun l => l.sectionId == activeSectionId) = 1 →
      (highlightActiveSection activeSectionId links).countP
        (fun l => l.isActive) = 1) := by
  refine ⟨highlightActiveSection_countP activeSectionId links, ?_, ?_⟩
  · intro l hl
    unfold highlightActiveSection at hl
    obtain ⟨a, ha, rfl⟩ := List.mem_map.mp hl
    exact ⟨rfl, rfl⟩
  · intro h
    rw [highlightActiveSection_countP activeSectionId links]
    exact h

/-- Witness for C7 at a concrete input with unique section identifiers. -/
theorem scrollSpy_highlight_C7_witness :
    demoNavLinks.countP (fun l => l.sectionId == "home") = 1 ∧
    (highlightActiveSection "home" demoNavLinks).countP
      (fun l => l.isActive) = 1 :=
  ⟨by decide, (scrollSpy_highlight_C7 "home" demoNavLinks).2.2 (by decide)⟩

/-- C8: a click whose nearest enclosing hyperlink ancestor targets an
in-page fragment naming an existing element prevents default behaviour,
scrolls to the target's document-relative top offset minus the
navigation bar's rendered height (0 if absent) minus 8, and closes the
mobile menu; a bare `"#"` fragment or a fragment with no matching
element is left to default behaviour with no scroll and no menu close. -/
theorem smoothScroll_C8 (env : ClickEnv) (h : String) :
    (env.anchorHref = some h → h = "#" →
      smoothScrollClick env = ⟨false, none, false⟩) ∧
    (env.anchorHref = some h → env.getElementById (h.drop 1) = none →
      smoothScrollClick env = ⟨false, none, false⟩) ∧
    (∀ el : PageElement, env.anchorHref = some h → h ≠ "" → h ≠ "#" →
      env.getElementById (h.drop 1) = some el →
      smoothScrollClick env =
        ⟨true, some (el.rectTop + env.pageYOffset - env.navHeight.getD 0 - 8),
          true⟩) := by
  refine ⟨?_, ?_, ?_⟩
  · intro ha hh
    subst hh
    simp [smoothScrollClick, ha]
  · intro ha hel
    simp only [smoothScrollClick, ha]
    by_cases hb : h = "" ∨ h = "#"
    · rw [if_pos hb]
    · rw [if_neg hb, hel]
  · intro el ha h1 h2 hel
    simp only [smoothScrollClick, ha]
    rw [if_neg ?_, hel]
    rintro (hc | hc)
    · exact h1 hc
    · exact h2 hc

/-- Witness for C8 at a concrete input. -/
theorem smoothScroll_C8_witness :
    demoClickEnv.anchorHref = some "#about" ∧
    demoClickEnv.getElementById (("#about").drop 1) = some demoElement ∧
    smoothScrollClick demoClickEnv =
      ⟨true, some (demoElement.rectTop + demoClickEnv.pageYOffset -
        demoClickEnv.navHeight.getD 0 - 8), true⟩ := by
  refine ⟨rfl, by decide, ?_⟩
  exact (smoothScroll_C8 demoClickEnv "#about").2.2 demoElement rfl
    (by decide) (by decide) (by decide)

/-- C9: for reveal elements and the skill-bar group the animated flag is
monotone (it equals the old flag or-ed with the intersection bit, so it
moves only from false to true and never reverts), and delivering any
further intersection event after the first firing leaves the state
completely unchanged. -/
theorem oneShot_animations_C9 (s : RevealState) (t : SkillState)
    (e e2 : Bool) :
    (revealStep s e).revealed = (s.revealed || e) ∧
    revealStep (revealStep s true) e2 = revealStep s true ∧
    (skillStep t e).hasAnimated = (t.hasAnimated || e) ∧
    skillStep (skillStep t true) e2 = skillStep t true := by
  refine ⟨?_, ?_, ?_, ?_⟩
  · cases e <;> simp [revealStep]
  · cases e2 <;> simp [revealStep]
  · cases e <;> cases ht : t.hasAnimated <;> simp [skillStep, ht]
  · cases e2 <;> cases ht : t.hasAnimated <;> simp [skillStep, ht]

/-- C10: on the mailto-fallback path (all four fields valid, sentinel
form id) the four field values after the handler returns equal the
values before; only the status element is updated (success message), no
error indicator is applied, the submit control is never written, and the
one transient synthetic anchor action is counted. -/
theorem contactForm_mailtoFrame_C10 (f : ContactFields)
    (o : RemoteOutcome) (hv : formIsValid f = true) :
    (submitHandler "YOUR_FORM_ID" f o).fieldsAfter = f ∧
    (submitHandler "YOUR_FORM_ID" f o).statusMsg = "Opening your email client…" ∧
    (submitHandler "YOUR_FORM_ID" f o).statusType = "success" ∧
    (submitHandler "YOUR_FORM_ID" f o).nameError = false ∧
    (submitHandler "YOUR_FORM_ID" f o).emailError = false ∧
    (submitHandler "YOUR_FORM_ID" f o).subjectError = false ∧
    (submitHandler "YOUR_FORM_ID" f o).messageError = false ∧
    (submitHandler "YOUR_FORM_ID" f o).disabledWrites = [] ∧
    (submitHandler "YOUR_FORM_ID" f o).mailtoCount = 1 := by
  simp [submitHandler, hv]

/-- Witness for C10 at a concrete input. -/
theorem contactForm_mailtoFrame_C10_witness :
    formIsValid demoValidFields = true ∧
    (submitHandler "YOUR_FORM_ID" demoValidFields
      RemoteOutcome.rejected).fieldsAfter = demoValidFields ∧
    (submitHandler "YOUR_FORM_ID" demoValidFields
      RemoteOutcome.rejected).mailtoCount = 1 := by
  have h := contactForm_mailtoFrame_C10 demoValidFields
    RemoteOutcome.rejected (by decide)
  exact ⟨by decide, h.1, h.2.2.2.2.2.2.2.2⟩
